import Mathlib

/-
Verification of the vcflib variant-filter core (src/Variant.h).

The header defines inline: the token type enum, the priority function, the
associativity and token-class predicates, and the convert helper. The
tokenizer, the shunting-yard conversion, the evaluator, the filter
application entry points and the genotype utilities are only declared in the
header; those are modelled from the specification (each such definition
carries a doc comment starting with "Modelled from the spec:").

Machine doubles are modelled by exact fractions (Frac below): every literal
appearing in the claims is an exact decimal and every comparison is far from
a tie, so exact rational arithmetic agrees with the double arithmetic the
code performs on them.
-/

/-- The exact-fraction model of the C++ double: an integer numerator over a
positive natural denominator, not kept normalized; arithmetic and comparison
are the usual cross-multiplication rules. -/
structure Frac where
  num : Int
  den : Nat
  deriving DecidableEq, Repr

instance (n : Nat) : OfNat Frac n :=
  ⟨⟨Int.ofNat n, 1⟩⟩

/-- Fraction addition. -/
def Frac.add (x y : Frac) : Frac :=
  ⟨x.num * y.den + y.num * x.den, x.den * y.den⟩

/-- Fraction subtraction. -/
def Frac.sub (x y : Frac) : Frac :=
  ⟨x.num * y.den - y.num * x.den, x.den * y.den⟩

/-- Fraction multiplication. -/
def Frac.mul (x y : Frac) : Frac :=
  ⟨x.num * y.num, x.den * y.den⟩

/-- Fraction division; the sign moves to the numerator so the denominator
stays a natural number. Only called on a nonzero divisor. -/
def Frac.div (x y : Frac) : Frac :=
  if 0 ≤ y.num then ⟨x.num * y.den, x.den * y.num.toNat⟩
  else ⟨-(x.num * y.den), x.den * (-y.num).toNat⟩

/-- Fraction order by cross-multiplication. -/
def Frac.lt (x y : Frac) : Bool :=
  x.num * y.den < y.num * x.den

/-- Fraction value equality by cross-multiplication. -/
def Frac.eqv (x y : Frac) : Bool :=
  x.num * y.den == y.num * x.den

/-- Whether the fraction is the value zero. -/
def Frac.isZero (x : Frac) : Bool :=
  x.num == 0

/-- The token-type enum of struct RuleToken (src/Variant.h lines 204-221). -/
inductive RuleTokenType where
  | OPERAND
  | NUMBER
  | BOOLEAN_VARIABLE
  | NUMERIC_VARIABLE
  | STRING_VARIABLE
  | AND_OPERATOR
  | OR_OPERATOR
  | ADD_OPERATOR
  | SUBTRACT_OPERATOR
  | MULTIPLY_OPERATOR
  | DIVIDE_OPERATOR
  | NOT_OPERATOR
  | EQUAL_OPERATOR
  | GREATER_THAN_OPERATOR
  | LESS_THAN_OPERATOR
  | LEFT_PARENTHESIS
  | RIGHT_PARENTHESIS
  deriving DecidableEq, Repr

/-- struct RuleToken (src/Variant.h lines 201-243): a tagged token carrying a
type, the source lexeme, and payload slots for a number, a string and a
boolean state. -/
structure RuleToken where
  type : RuleTokenType
  value : String
  number : Frac
  str : String
  state : Bool
  isVariable : Bool
  deriving DecidableEq, Repr

/-- A token that carries only its type, every payload slot at its default. -/
def mkToken (t : RuleTokenType) : RuleToken :=
  ⟨t, "", 0, "", false, false⟩

/-- The observable outcome of the C++ function priority: either a returned
integer, or a call to exit with the given status, which terminates the
process. -/
inductive PriorityResult where
  | ret : Int → PriorityResult
  | processExit : Nat → PriorityResult
  deriving DecidableEq, Repr

/-- priority (src/Variant.h lines 245-261). The default branch of the switch
prints "invalid token type" to cerr and calls exit(1): that is the
processExit outcome. -/
def priority (token : RuleToken) : PriorityResult :=
  match token.type with
  | .MULTIPLY_OPERATOR => .ret 8
  | .DIVIDE_OPERATOR => .ret 8
  | .ADD_OPERATOR => .ret 7
  | .SUBTRACT_OPERATOR => .ret 7
  | .NOT_OPERATOR => .ret 6
  | .EQUAL_OPERATOR => .ret 5
  | .GREATER_THAN_OPERATOR => .ret 5
  | .LESS_THAN_OPERATOR => .ret 5
  | .AND_OPERATOR => .ret 4
  | .OR_OPERATOR => .ret 3
  | .LEFT_PARENTHESIS => .ret 0
  | .RIGHT_PARENTHESIS => .ret 0
  | _ => .processExit 1

/-- isRightAssociative (src/Variant.h lines 263-266). -/
def isRightAssociative (token : RuleToken) : Bool :=
  token.type == RuleTokenType.NOT_OPERATOR ||
    token.type == RuleTokenType.LEFT_PARENTHESIS

/-- isLeftAssociative (src/Variant.h lines 268-270). -/
def isLeftAssociative (token : RuleToken) : Bool :=
  !isRightAssociative token

/-- isLeftParenthesis (src/Variant.h lines 272-274). -/
def isLeftParenthesis (token : RuleToken) : Bool :=
  token.type == RuleTokenType.LEFT_PARENTHESIS

/-- isRightParenthesis (src/Variant.h lines 276-278). -/
def isRightParenthesis (token : RuleToken) : Bool :=
  token.type == RuleTokenType.RIGHT_PARENTHESIS

/-- isOperand (src/Variant.h lines 280-287). -/
def isOperand (token : RuleToken) : Bool :=
  token.type == RuleTokenType.OPERAND ||
    token.type == RuleTokenType.NUMBER ||
    token.type == RuleTokenType.NUMERIC_VARIABLE ||
    token.type == RuleTokenType.STRING_VARIABLE ||
    token.type == RuleTokenType.BOOLEAN_VARIABLE

/-- isOperator (src/Variant.h lines 289-301). -/
def isOperator (token : RuleToken) : Bool :=
  token.type == RuleTokenType.AND_OPERATOR ||
    token.type == RuleTokenType.OR_OPERATOR ||
    token.type == RuleTokenType.NOT_OPERATOR ||
    token.type == RuleTokenType.EQUAL_OPERATOR ||
    token.type == RuleTokenType.GREATER_THAN_OPERATOR ||
    token.type == RuleTokenType.LESS_THAN_OPERATOR ||
    token.type == RuleTokenType.MULTIPLY_OPERATOR ||
    token.type == RuleTokenType.DIVIDE_OPERATOR ||
    token.type == RuleTokenType.ADD_OPERATOR ||
    token.type == RuleTokenType.SUBTRACT_OPERATOR

/-- isOperatorChar (src/Variant.h lines 303-314). -/
def isOperatorChar (c : Char) : Bool :=
  c == '!' || c == '&' || c == '|' || c == '=' || c == '>' ||
    c == '<' || c == '*' || c == '/' || c == '+' || c == '-'

/-- isParanChar (src/Variant.h lines 316-318). -/
def isParanChar (c : Char) : Bool :=
  c == '(' || c == ')'

/-- The field-type enum (src/Variant.h lines 21-26). -/
inductive VariantFieldType where
  | FIELD_FLOAT
  | FIELD_INTEGER
  | FIELD_BOOL
  | FIELD_STRING
  | FIELD_UNKNOWN
  deriving DecidableEq, Repr

/-- INDEX_NONE sentinel (src/Variant.h line 32). -/
def INDEX_NONE : Int := -1

/-- NULL_ALLELE sentinel (src/Variant.h line 33). -/
def NULL_ALLELE : Int := -1

/-- First-match association lookup, the map access pattern used throughout. -/
def lookupAssoc {α : Type} (key : String) : List (String × α) → Option α
  | [] => none
  | kv :: rest => if kv.1 = key then some kv.2 else lookupAssoc key rest

/-- Whitespace in the C++ default locale, skipped by stream extraction and by
the lexer. -/
def isWsChar (c : Char) : Bool :=
  c == ' ' || c == '\t' || c == '\n' || c == '\r'

/-- The numeric value of a digit run. -/
def digitsToNat (cs : List Char) : Nat :=
  cs.foldl (fun a c => 10 * a + (c.toNat - 48)) 0

/-- The longest leading digit run and the remainder. -/
def takeDigits : List Char → List Char × List Char
  | [] => ([], [])
  | c :: rest =>
    if c.isDigit then
      let p := takeDigits rest
      (c :: p.1, p.2)
    else ([], c :: rest)

/-- Model of C++ stream extraction of a double from a character sequence:
optional sign, digits, optional point and fraction digits, optional exponent;
at least one mantissa digit is required. Returns the value and the unread
remainder, or none when extraction fails. -/
def parseDouble (cs : List Char) : Option (Frac × List Char) :=
  let sgn : Int × List Char :=
    match cs with
    | '-' :: r => (-1, r)
    | '+' :: r => (1, r)
    | _ => (1, cs)
  let ip := takeDigits sgn.2
  let fp : List Char × List Char :=
    match ip.2 with
    | '.' :: r => takeDigits r
    | _ => ([], ip.2)
  if ip.1.isEmpty && fp.1.isEmpty then none
  else
    let mant : Frac :=
      ⟨sgn.1 * Int.ofNat (digitsToNat ip.1 * 10 ^ fp.1.length + digitsToNat fp.1),
        10 ^ fp.1.length⟩
    match fp.2 with
    | 'e' :: r => parseExponent mant r
    | 'E' :: r => parseExponent mant r
    | rest => some (mant, rest)
where
  parseExponent (mant : Frac) (r : List Char) : Option (Frac × List Char) :=
    let es : Bool × List Char :=
      match r with
      | '-' :: r2 => (true, r2)
      | '+' :: r2 => (false, r2)
      | _ => (false, r)
    let ed := takeDigits es.2
    if ed.1.isEmpty then none
    else
      let e := digitsToNat ed.1
      some ((if es.1 then ⟨mant.num, mant.den * 10 ^ e⟩
        else ⟨mant.num * Int.ofNat (10 ^ e), mant.den⟩), ed.2)

/-- convert (src/Variant.h lines 338-343), instantiated at double: stream
extraction into r, then success exactly when extraction did not fail and the
stream position equals the string length, i.e. the whole string was consumed
(leading whitespace is consumed by extraction itself). -/
def convert (s : String) : Option Frac :=
  match parseDouble (s.toList.dropWhile isWsChar) with
  | some vr => if vr.2.isEmpty then some vr.1 else none
  | none => none

/-- A fully defaulted token of the given type carrying a source lexeme. -/
def mkValuedToken (t : RuleTokenType) (lexeme : String) : RuleToken :=
  ⟨t, lexeme, 0, "", false, false⟩

/-- Modelled from the spec: the variable token produced for a registry key of
the given declared field type (Boolean for the boolean field type, Numeric
for float and integer, String for string and unknown). The RuleToken
constructor taking a lexeme and the registry is declared in src/Variant.h
line 224 but not defined there. -/
def variableToken (lexeme : String) (ft : VariantFieldType) : RuleToken :=
  match ft with
  | .FIELD_BOOL => ⟨.BOOLEAN_VARIABLE, lexeme, 0, "", false, true⟩
  | .FIELD_FLOAT => ⟨.NUMERIC_VARIABLE, lexeme, 0, "", false, true⟩
  | .FIELD_INTEGER => ⟨.NUMERIC_VARIABLE, lexeme, 0, "", false, true⟩
  | .FIELD_STRING => ⟨.STRING_VARIABLE, lexeme, 0, "", false, true⟩
  | .FIELD_UNKNOWN => ⟨.STRING_VARIABLE, lexeme, 0, "", false, true⟩

/-- Modelled from the spec: operand classification during lexing. A lexeme
matching a registry key becomes a variable token of the declared kind;
otherwise a lexeme that convert accepts in full becomes a Number token;
otherwise lexing fails with a syntax error. -/
def classifyOperand (lexeme : String) (vars : List (String × VariantFieldType)) :
    Except String RuleToken :=
  match lookupAssoc lexeme vars with
  | some ft => .ok (variableToken lexeme ft)
  | none =>
    match convert lexeme with
    | some v => .ok ⟨.NUMBER, lexeme, v, "", false, false⟩
    | none => .error ("syntax error, unrecognized operand " ++ lexeme)

/-- Modelled from the spec: each single operator character maps to its
operator token. The final branch is unreachable under the isOperatorChar
guard in the lexer. -/
def opCharToken (c : Char) : RuleToken :=
  if c == '!' then mkToken .NOT_OPERATOR
  else if c == '&' then mkToken .AND_OPERATOR
  else if c == '|' then mkToken .OR_OPERATOR
  else if c == '=' then mkToken .EQUAL_OPERATOR
  else if c == '>' then mkToken .GREATER_THAN_OPERATOR
  else if c == '<' then mkToken .LESS_THAN_OPERATOR
  else if c == '*' then mkToken .MULTIPLY_OPERATOR
  else if c == '/' then mkToken .DIVIDE_OPERATOR
  else if c == '+' then mkToken .ADD_OPERATOR
  else mkToken .SUBTRACT_OPERATOR

/-- The token for a parenthesis character. -/
def parenToken (c : Char) : RuleToken :=
  if c == '(' then mkToken .LEFT_PARENTHESIS else mkToken .RIGHT_PARENTHESIS

/-- Emit the pending operand lexeme, if any, in front of the tokens that
follow it. -/
def emitLexeme (vars : List (String × VariantFieldType)) (acc : List Char)
    (restTokens : Except String (List RuleToken)) : Except String (List RuleToken) :=
  if acc.isEmpty then restTokens
  else
    match classifyOperand (String.mk acc.reverse) vars with
    | .error e => .error e
    | .ok t =>
      match restTokens with
      | .error e => .error e
      | .ok ts => .ok (t :: ts)

/-- Modelled from the spec: the left-to-right scan of tokenizeFilterSpec
(declared at src/Variant.h line 345). acc holds the reversed characters of
the operand lexeme currently being read; whitespace only separates tokens;
an operator or parenthesis character ends the pending lexeme and produces its
own token. -/
def tokenizeAux (vars : List (String × VariantFieldType)) :
    List Char → List Char → Except String (List RuleToken)
  | [], acc => emitLexeme vars acc (.ok [])
  | c :: rest, acc =>
    if isWsChar c then emitLexeme vars acc (tokenizeAux vars rest [])
    else if isOperatorChar c then
      emitLexeme vars acc ((tokenizeAux vars rest []).map (opCharToken c :: ·))
    else if isParanChar c then
      emitLexeme vars acc ((tokenizeAux vars rest []).map (parenToken c :: ·))
    else tokenizeAux vars rest (c :: acc)

/-- Modelled from the spec: tokenizeFilterSpec lexes a filter-spec string
into the infix token sequence, consulting the type registry for operand
classification. -/
def tokenizeFilterSpec (filterspec : String)
    (vars : List (String × VariantFieldType)) : Except String (List RuleToken) :=
  tokenizeAux vars filterspec.toList []

/-- The integer precedence used by the conversion: the returned value of
priority; the conversion only consults it on operator and parenthesis tokens,
where priority always returns. -/
def prio (t : RuleToken) : Int :=
  match priority t with
  | .ret n => n
  | .processExit _ => 0

/-- Modelled from the spec: on a right parenthesis, pop operators to the
output until a left parenthesis is popped, discarding both; none signals
unbalanced parentheses. Returns the popped run and the remaining stack. -/
def popUntilLeftParen : List RuleToken → Option (List RuleToken × List RuleToken)
  | [] => none
  | top :: rest =>
    if isLeftParenthesis top then some ([], rest)
    else
      match popUntilLeftParen rest with
      | some pr => some (top :: pr.1, pr.2)
      | none => none

/-- Modelled from the spec: before pushing operator op, pop to the output
every stacked token that is not a parenthesis and either binds strictly
tighter than op, or equally tight while op is left-associative. -/
def popGreater (op : RuleToken) : List RuleToken → List RuleToken × List RuleToken
  | [] => ([], [])
  | top :: rest =>
    if !isLeftParenthesis top && !isRightParenthesis top &&
        (prio op < prio top || (prio top == prio op && isLeftAssociative op)) then
      let pr := popGreater op rest
      (top :: pr.1, pr.2)
    else ([], top :: rest)

/-- Modelled from the spec: the single left-to-right pass of the
infix-to-evaluation-order conversion, carrying the operator stack and the
output sequence. -/
def shuntLoop : List RuleToken → List RuleToken → List RuleToken →
    Except String (List RuleToken)
  | [], stack, output =>
    if stack.any (fun t => isLeftParenthesis t || isRightParenthesis t) then
      .error "unbalanced parentheses"
    else .ok (output ++ stack)
  | tok :: rest, stack, output =>
    if isOperand tok then shuntLoop rest stack (output ++ [tok])
    else if isLeftParenthesis tok then shuntLoop rest (tok :: stack) output
    else if isRightParenthesis tok then
      match popUntilLeftParen stack with
      | some pr => shuntLoop rest pr.2 (output ++ pr.1)
      | none => .error "unbalanced parentheses"
    else
      let pr := popGreater tok stack
      shuntLoop rest (tok :: pr.2) (output ++ pr.1)

/-- Modelled from the spec: convert the infix token sequence into the linear
evaluation-order (reverse-Polish) sequence stored in a VariantFilter. -/
def toRPN (tokens : List RuleToken) : Except String (List RuleToken) :=
  shuntLoop tokens [] []

/-- A resolved operand value during evaluation: the number, string and
boolean payloads a resolved RuleToken can carry. -/
inductive RValue where
  | num : Frac → RValue
  | str : String → RValue
  | boolean : Bool → RValue
  deriving DecidableEq, Repr

/-- Modelled from the spec: apply a binary operator to two resolved operands,
left then right; arithmetic needs two numbers (divide-by-zero is an error),
comparison needs two numbers or two strings, logic needs two booleans; any
other combination is a type-mismatch error. -/
def applyOp (op : RuleTokenType) (l r : RValue) : Except String RValue :=
  match op, l, r with
  | .ADD_OPERATOR, .num a, .num b => .ok (.num (a.add b))
  | .SUBTRACT_OPERATOR, .num a, .num b => .ok (.num (a.sub b))
  | .MULTIPLY_OPERATOR, .num a, .num b => .ok (.num (a.mul b))
  | .DIVIDE_OPERATOR, .num a, .num b =>
    if b.isZero then .error "divide by zero" else .ok (.num (a.div b))
  | .EQUAL_OPERATOR, .num a, .num b => .ok (.boolean (a.eqv b))
  | .GREATER_THAN_OPERATOR, .num a, .num b => .ok (.boolean (Frac.lt b a))
  | .LESS_THAN_OPERATOR, .num a, .num b => .ok (.boolean (Frac.lt a b))
  | .EQUAL_OPERATOR, .str a, .str b => .ok (.boolean (decide (a = b)))
  | .GREATER_THAN_OPERATOR, .str a, .str b => .ok (.boolean (decide (b < a)))
  | .LESS_THAN_OPERATOR, .str a, .str b => .ok (.boolean (decide (a < b)))
  | .AND_OPERATOR, .boolean a, .boolean b => .ok (.boolean (a && b))
  | .OR_OPERATOR, .boolean a, .boolean b => .ok (.boolean (a || b))
  | _, _, _ => .error "type mismatch in filter expression"

/-- Modelled from the spec: the raw string supplying a variable value: the
entry at the given allele index, or the whole stored sequence as one scalar
when no index is given. -/
def rawValueAt (values : List String) (idx : Option Nat) : Option String :=
  match idx with
  | some i => values.get? i
  | none => some (String.intercalate "," values)

/-- Modelled from the spec: the store a variable key is looked up in: the
named sample's FORMAT values when a sample context is given, the record's
INFO store otherwise. -/
def fieldValues (key : String) (info : List (String × List String))
    (sampleFields : Option (List (String × List String))) : Option (List String) :=
  match sampleFields with
  | some fields => lookupAssoc key fields
  | none => lookupAssoc key info

/-- Modelled from the spec: convert a raw string to a boolean operand. -/
def rawToBool (raw : String) : Except String Bool :=
  if raw = "1" then .ok true
  else if raw = "0" then .ok false
  else .error ("could not convert value to boolean, value is " ++ raw)

/-- Modelled from the spec: resolve one operand token against the evaluation
context (INFO store, INFO flag store, optional sample FORMAT store, optional
allele index), producing a resolved value or an error. -/
def resolveOperand (tok : RuleToken) (info : List (String × List String))
    (infoFlags : List (String × Bool))
    (sampleFields : Option (List (String × List String)))
    (idx : Option Nat) : Except String RValue :=
  match tok.type with
  | .NUMBER => .ok (.num tok.number)
  | .NUMERIC_VARIABLE =>
    match fieldValues tok.value info sampleFields with
    | none => .error ("unknown field " ++ tok.value)
    | some vs =>
      match rawValueAt vs idx with
      | none => .error ("no value at allele index for field " ++ tok.value)
      | some raw =>
        match convert raw with
        | some v => .ok (.num v)
        | none => .error ("could not convert value to number, value is " ++ raw)
  | .STRING_VARIABLE =>
    match fieldValues tok.value info sampleFields with
    | none => .error ("unknown field " ++ tok.value)
    | some vs =>
      match rawValueAt vs idx with
      | none => .error ("no value at allele index for field " ++ tok.value)
      | some raw => .ok (.str raw)
  | .BOOLEAN_VARIABLE =>
    match sampleFields with
    | none => .ok (.boolean ((lookupAssoc tok.value infoFlags).getD false))
    | some fields =>
      match lookupAssoc tok.value fields with
      | none => .error ("unknown field " ++ tok.value)
      | some vs =>
        match rawValueAt vs idx with
        | none => .error ("no value at allele index for field " ++ tok.value)
        | some raw =>
          match rawToBool raw with
          | .ok b => .ok (.boolean b)
          | .error e => .error e
  | _ => .error "token is not a resolvable operand"

/-- Modelled from the spec: one step of the evaluation walk: push resolved
operands; logical-not pops one boolean; every other operator pops the right
then the left operand and applies. -/
def evalStep (info : List (String × List String)) (infoFlags : List (String × Bool))
    (sampleFields : Option (List (String × List String))) (idx : Option Nat)
    (stack : List RValue) (tok : RuleToken) : Except String (List RValue) :=
  if isOperand tok then
    match resolveOperand tok info infoFlags sampleFields idx with
    | .ok v => .ok (v :: stack)
    | .error e => .error e
  else if tok.type = RuleTokenType.NOT_OPERATOR then
    match stack with
    | RValue.boolean b :: rest => .ok (RValue.boolean (!b) :: rest)
    | _ => .error "type mismatch, logical-not requires a boolean operand"
  else if isOperator tok then
    match stack with
    | r :: l :: rest =>
      match applyOp tok.type l r with
      | .ok v => .ok (v :: rest)
      | .error e => .error e
    | _ => .error "malformed filter, operand stack underflow"
  else .error "unexpected parenthesis in evaluation sequence"

/-- Modelled from the spec: walk the evaluation-order sequence with an
operand stack; exactly one value must remain, the result. -/
def evalRPN (rules : List RuleToken) (info : List (String × List String))
    (infoFlags : List (String × Bool))
    (sampleFields : Option (List (String × List String)))
    (idx : Option Nat) : Except String RValue :=
  match rules.foldlM (evalStep info infoFlags sampleFields idx) [] with
  | .ok [v] => .ok v
  | .ok _ => .error "malformed filter, final stack is not a single value"
  | .error e => .error e

/-- class Variant (src/Variant.h lines 133-196): the record fields the filter
core reads and writes. The stream-handle back reference and the parse cache
are the excluded I/O collaborator's concern. -/
structure Variant where
  sequenceName : String
  position : Nat
  id : String
  ref : String
  alt : List String
  alleles : List String
  altAlleleIndecies : List (String × Int)
  filter : String
  quality : Frac
  info : List (String × List String)
  infoFlags : List (String × Bool)
  format : List String
  samples : List (String × List (String × List String))
  sampleNames : List String
  outputSampleNames : List String
  deriving DecidableEq, Repr

/-- The VariantFilterType enum (src/Variant.h lines 352-353). -/
inductive VariantFilterType where
  | SAMPLE
  | RECORD
  deriving DecidableEq, Repr

/-- class VariantFilter (src/Variant.h lines 348-364): a compiled filter
holding the spec string, the evaluation-order token sequence and the filter
kind. -/
structure VariantFilter where
  spec : String
  rules : List RuleToken
  type : VariantFilterType
  deriving DecidableEq, Repr

/-- Modelled from the spec: the VariantFilter constructor (declared at
src/Variant.h line 359) tokenizes the filter spec and converts it to
evaluation order. -/
def compileFilter (filterspec : String) (filtertype : VariantFilterType)
    (vars : List (String × VariantFieldType)) : Except String VariantFilter :=
  match tokenizeFilterSpec filterspec vars with
  | .error e => .error e
  | .ok toks =>
    match toRPN toks with
    | .error e => .error e
    | .ok rules => .ok ⟨filterspec, rules, filtertype⟩

/-- The FORMAT store of the named sample; an unknown sample name supplies an
empty store, so every field lookup in it fails. -/
def sampleFieldsOf (var : Variant) (sample : Option String) :
    Option (List (String × List String)) :=
  match sample with
  | none => none
  | some s => some ((lookupAssoc s var.samples).getD [])

/-- Modelled from the spec: the boolean verdict of one evaluation: the single
remaining value must be boolean; an error or a non-boolean result reports
failure. -/
def verdict (rules : List RuleToken) (info : List (String × List String))
    (infoFlags : List (String × Bool))
    (sampleFields : Option (List (String × List String)))
    (idx : Option Nat) : Bool :=
  match evalRPN rules info infoFlags sampleFields idx with
  | .ok (RValue.boolean b) => b
  | _ => false

/-- Modelled from the spec: the all-alternate-alleles verdict over the
components of the evaluation context: one allele-indexed evaluation per
alternate allele, every one of which must be true. -/
def passesFields (f : VariantFilter) (altCount : Nat)
    (info : List (String × List String)) (infoFlags : List (String × Bool))
    (sampleFields : Option (List (String × List String))) : Bool :=
  (List.range altCount).all (fun i => verdict f.rules info infoFlags sampleFields (some i))

/-- Modelled from the spec: the two-argument VariantFilter::passes call shape
(declared at src/Variant.h line 360, commented "all alts pass"): the sample
passes only if every allele-indexed evaluation is true. -/
def VariantFilter.passes (f : VariantFilter) (var : Variant) (sample : String) : Bool :=
  passesFields f var.alt.length var.info var.infoFlags (sampleFieldsOf var (some sample))

/-- Modelled from the spec: the single-allele call shape (declared at
src/Variant.h line 361): evaluate with one explicit allele index. -/
def VariantFilter.passesAllele (f : VariantFilter) (var : Variant) (sample : String)
    (i : Nat) : Bool :=
  verdict f.rules var.info var.infoFlags (sampleFieldsOf var (some sample)) (some i)

/-- A genotype separator character: phase or unphase. -/
def isGtSepChar (c : Char) : Bool :=
  c == '/' || c == '|'

/-- Split a character sequence on genotype separators, keeping empty pieces;
the result always has one more piece than there are separators. -/
def splitOnSeps : List Char → List (List Char)
  | [] => [[]]
  | c :: rest =>
    if isGtSepChar c then [] :: splitOnSeps rest
    else
      match splitOnSeps rest with
      | [] => [[c]]
      | p :: ps => (c :: p) :: ps

/-- Join pieces with the unphased separator. -/
def joinSlash : List (List Char) → List Char
  | [] => []
  | [p] => p
  | p :: ps => p ++ '/' :: joinSlash ps

/-- The number of allele positions in a genotype string. -/
def ploidyOf (genotype : String) : Nat :=
  (splitOnSeps genotype.toList).length

/-- Modelled from the spec: parse one genotype element: a non-negative
integer allele index, or the missing marker mapped to NULL_ALLELE. -/
def parseAllele (cs : List Char) : Option Int :=
  if cs = ['.'] then some NULL_ALLELE
  else if !cs.isEmpty && cs.all Char.isDigit then some (Int.ofNat (digitsToNat cs))
  else none

/-- Add one occurrence of an allele index to the count mapping, keeping keys
distinct. -/
def incrCount (k : Int) : List (Int × Nat) → List (Int × Nat)
  | [] => [(k, 1)]
  | kc :: rest => if kc.1 = k then (kc.1, kc.2 + 1) :: rest else kc :: incrCount k rest

/-- Modelled from the spec: decomposeGenotype (declared at src/Variant.h line
372) splits the genotype string on phase and unphase separators, maps each
element to an allele index (the missing marker to NULL_ALLELE) and returns
the mapping from each distinct index to its occurrence count; none when any
element is invalid. -/
def decomposeGenotype (genotype : String) : Option (List (Int × Nat)) :=
  (splitOnSeps genotype.toList).foldlM
    (fun acc p =>
      match parseAllele p with
      | some k => some (incrCount k acc)
      | none => none)
    []

/-- Modelled from the spec: heterozygous means more than one distinct allele
index in the decomposed mapping. -/
def isHet (genotype : List (Int × Nat)) : Bool :=
  1 < genotype.length

/-- Modelled from the spec: homozygous means exactly one distinct allele
index in the decomposed mapping. -/
def isHom (genotype : List (Int × Nat)) : Bool :=
  genotype.length = 1

/-- The sum of the occurrence counts of a decomposed genotype. -/
def countSum (genotype : List (Int × Nat)) : Nat :=
  (genotype.map Prod.snd).sum

/-- Modelled from the spec: the all-missing genotype string of the same
ploidy as the given genotype: every allele position replaced with the
missing marker. -/
def missingGenotype (genotype : String) : String :=
  String.mk (joinSlash ((splitOnSeps genotype.toList).map (fun _ => ['.'])))

/-- Modelled from the spec: rewrite the genotype field of one sample store to
the all-missing genotype, leaving every other field untouched. -/
def scrubGT (fields : List (String × List String)) : List (String × List String) :=
  fields.map (fun kv =>
    if kv.1 = "GT" then (kv.1, kv.2.map missingGenotype) else kv)

/-- Modelled from the spec: VariantFilter::removeFilteredGenotypes (declared
at src/Variant.h line 362): for every sample failing the sample-kind filter,
rewrite that sample's genotype field to the all-missing genotype string. -/
def VariantFilter.removeFilteredGenotypes (f : VariantFilter) (var : Variant) : Variant :=
  { var with
    samples := var.samples.map (fun nv =>
      (nv.1, if f.passes var nv.1 then nv.2 else scrubGT nv.2)) }

/-- Modelled from the spec: evaluation threading the record through every
step alongside the operand stack, mirroring the by-reference record the C++
evaluator reads its values from. -/
def evalStepVar (sample : Option String) (idx : Option Nat)
    (acc : List RValue × Variant) (tok : RuleToken) :
    Except String (List RValue × Variant) :=
  match evalStep acc.2.info acc.2.infoFlags (sampleFieldsOf acc.2 sample) idx acc.1 tok with
  | .ok stack => .ok (stack, acc.2)
  | .error e => .error e

/-- Modelled from the spec: the evaluation walk over a record, returning the
result together with the record it leaves behind. -/
def evalRPNOnVariant (rules : List RuleToken) (var : Variant)
    (sample : Option String) (idx : Option Nat) : Except String (RValue × Variant) :=
  match rules.foldlM (evalStepVar sample idx) ([], var) with
  | .ok ([v], var2) => .ok (v, var2)
  | .ok _ => .error "malformed filter, final stack is not a single value"
  | .error e => .error e

/-- The boolean registry of the precedence scenario: three boolean fields. -/
def abcRegistry : List (String × VariantFieldType) :=
  [("A", VariantFieldType.FIELD_BOOL), ("B", VariantFieldType.FIELD_BOOL),
    ("C", VariantFieldType.FIELD_BOOL)]

/-- The INFO flag store of the precedence scenario: A false, B true, C true. -/
def abcFlags : List (String × Bool) :=
  [("A", false), ("B", true), ("C", true)]

/-- The registry of the numeric scenarios: DP and AF are float fields. -/
def demoRegistry : List (String × VariantFieldType) :=
  [("DP", VariantFieldType.FIELD_FLOAT), ("AF", VariantFieldType.FIELD_FLOAT)]

/-- The two-alternate-allele record of the per-allele scenario: sample S1
carries AF values 0.1 and 0.9, one per alternate allele. -/
def afVariant : Variant :=
  ⟨"chr1", 100, "v1", "A", ["C", "G"], ["A", "C", "G"], [("C", 1), ("G", 2)],
    "PASS", 50, [], [], ["GT", "AF"],
    [("S1", [("GT", ["0/1"]), ("AF", ["0.1", "0.9"])])],
    ["S1"], ["S1"]⟩

/-- The compiled sample-kind filter of the per-allele scenario. -/
def afFilterE : Except String VariantFilter :=
  compileFilter "AF > 0.5" VariantFilterType.SAMPLE demoRegistry

/-- The record of the record-kind scenario: INFO field DP holds 15. -/
def demoVariant : Variant :=
  ⟨"chr1", 100, "v1", "A", ["C"], ["A", "C"], [("C", 1)], "PASS", 50,
    [("DP", ["15"])], [], [], [], [], []⟩

/-- The compiled record-kind filter of the record-kind scenario. -/
def demoFilter : VariantFilter :=
  (compileFilter "DP > 10" VariantFilterType.RECORD demoRegistry).toOption.getD
    ⟨"", [], VariantFilterType.RECORD⟩

/-- The four allele symbols of the genotype test fixture. -/
def genotypeAlleleStrs : List String := ["0", "1", "2", "."]

/-- The two genotype separators. -/
def genotypeSepStrs : List String := ["/", "|"]

/-- Every valid ploidy-1 genotype string over the fixture alleles. -/
def validGenotypes1 : List String := genotypeAlleleStrs

/-- Every valid ploidy-2 genotype string over the fixture alleles, with
either separator. -/
def validGenotypes2 : List String :=
  (genotypeAlleleStrs.map (fun a =>
    ((genotypeSepStrs.map (fun s =>
      genotypeAlleleStrs.map (fun b => a ++ s ++ b))).flatten))).flatten

/-- Every valid ploidy-3 genotype string over the fixture alleles, with
either separator at each position. -/
def validGenotypes3 : List String :=
  (validGenotypes2.map (fun g =>
    ((genotypeSepStrs.map (fun s =>
      genotypeAlleleStrs.map (fun b => g ++ s ++ b))).flatten))).flatten

/-- Every valid genotype string over alleles 0, 1, 2 and the missing marker,
of ploidy 1 to 3. -/
def validGenotypes : List String :=
  validGenotypes1 ++ validGenotypes2 ++ validGenotypes3
/-- C1: the code violates the propagation policy: priority applied to a token
whose type is not an operator or a parenthesis (here the unclassified operand
type) does not return a recoverable error to the caller but terminates the
process via exit(1). -/
theorem priority_operand_exits :
    priority (mkToken RuleTokenType.OPERAND) = PriorityResult.processExit 1 := by
  rfl

/-- C2: for every operator token the priority function returns exactly the
fixed table of the spec: multiply and divide 8, add and subtract 7,
logical-not 6, equal, greater-than and less-than 5, and 4, or 3, and both
parentheses 0. -/
theorem priority_matches_spec_table : ∀ t : RuleToken,
    (t.type = RuleTokenType.MULTIPLY_OPERATOR → priority t = PriorityResult.ret 8) ∧
    (t.type = RuleTokenType.DIVIDE_OPERATOR → priority t = PriorityResult.ret 8) ∧
    (t.type = RuleTokenType.ADD_OPERATOR → priority t = PriorityResult.ret 7) ∧
    (t.type = RuleTokenType.SUBTRACT_OPERATOR → priority t = PriorityResult.ret 7) ∧
    (t.type = RuleTokenType.NOT_OPERATOR → priority t = PriorityResult.ret 6) ∧
    (t.type = RuleTokenType.EQUAL_OPERATOR → priority t = PriorityResult.ret 5) ∧
    (t.type = RuleTokenType.GREATER_THAN_OPERATOR → priority t = PriorityResult.ret 5) ∧
    (t.type = RuleTokenType.LESS_THAN_OPERATOR → priority t = PriorityResult.ret 5) ∧
    (t.type = RuleTokenType.AND_OPERATOR → priority t = PriorityResult.ret 4) ∧
    (t.type = RuleTokenType.OR_OPERATOR → priority t = PriorityResult.ret 3) ∧
    (t.type = RuleTokenType.LEFT_PARENTHESIS → priority t = PriorityResult.ret 0) ∧
    (t.type = RuleTokenType.RIGHT_PARENTHESIS → priority t = PriorityResult.ret 0) := by
  intro t
  refine ⟨?_, ?_, ?_, ?_, ?_, ?_, ?_, ?_, ?_, ?_, ?_, ?_⟩ <;>
    · intro h
      simp [priority, h]

/-- C4: isRightAssociative holds exactly on the logical-not operator and the
left parenthesis, isLeftAssociative holds exactly on every other token, and
the two predicates are pointwise complements. -/
theorem associativity_classification : ∀ t : RuleToken,
    (isRightAssociative t = true ↔
      (t.type = RuleTokenType.NOT_OPERATOR ∨ t.type = RuleTokenType.LEFT_PARENTHESIS)) ∧
    (isLeftAssociative t = true ↔
      ¬(t.type = RuleTokenType.NOT_OPERATOR ∨ t.type = RuleTokenType.LEFT_PARENTHESIS)) ∧
    isLeftAssociative t = !isRightAssociative t := by
  intro t
  obtain ⟨ty, v, n, s, st, iv⟩ := t
  cases ty <;> simp [isRightAssociative, isLeftAssociative]

/-- C10: every token type lands in exactly one of the four classes: the five
operand kinds satisfy only isOperand, the ten operator kinds satisfy only
isOperator, and each parenthesis satisfies only its own predicate. -/
theorem token_class_partition : ∀ t : RuleToken,
    (isOperand t = true ↔
      (t.type = RuleTokenType.OPERAND ∨ t.type = RuleTokenType.NUMBER ∨
        t.type = RuleTokenType.BOOLEAN_VARIABLE ∨
        t.type = RuleTokenType.NUMERIC_VARIABLE ∨
        t.type = RuleTokenType.STRING_VARIABLE)) ∧
    (isLeftParenthesis t = true ↔ t.type = RuleTokenType.LEFT_PARENTHESIS) ∧
    (isRightParenthesis t = true ↔ t.type = RuleTokenType.RIGHT_PARENTHESIS) ∧
    (isOperator t = true ↔
      ¬(isOperand t = true ∨ isLeftParenthesis t = true ∨ isRightParenthesis t = true)) ∧
    ((isOperand t = true ∧ isOperator t = false ∧ isLeftParenthesis t = false ∧
        isRightParenthesis t = false) ∨
      (isOperand t = false ∧ isOperator t = true ∧ isLeftParenthesis t = false ∧
        isRightParenthesis t = false) ∨
      (isOperand t = false ∧ isOperator t = false ∧ isLeftParenthesis t = true ∧
        isRightParenthesis t = false) ∨
      (isOperand t = false ∧ isOperator t = false ∧ isLeftParenthesis t = false ∧
        isRightParenthesis t = true)) := by
  intro t
  obtain ⟨ty, v, n, s, st, iv⟩ := t
  cases ty <;>
    simp [isOperand, isOperator, isLeftParenthesis, isRightParenthesis]

/-- C3: compiling a filter spec and evaluating the resulting evaluation-order
sequence honors precedence and parenthesization: "1 + 2 * 3" evaluates to 7,
"(1 + 2) * 3" evaluates to 9, and "A & B | C" with A false, B true, C true
evaluates to true because AND binds tighter than OR. -/
theorem compiled_filter_precedence :
    ((compileFilter "1 + 2 * 3" VariantFilterType.RECORD []).bind
      (fun f => evalRPN f.rules [] [] none none) = Except.ok (RValue.num 7)) ∧
    ((compileFilter "(1 + 2) * 3" VariantFilterType.RECORD []).bind
      (fun f => evalRPN f.rules [] [] none none) = Except.ok (RValue.num 9)) ∧
    ((compileFilter "A & B | C" VariantFilterType.RECORD abcRegistry).bind
      (fun f => evalRPN f.rules [] abcFlags none none) =
        Except.ok (RValue.boolean true)) :=
  ⟨rfl, rfl, rfl⟩

set_option maxRecDepth 10000 in
/-- C5: for every valid genotype string over alleles 0, 1, 2 and the missing
marker with ploidy 1 to 3, decomposition succeeds, the counts sum to the
ploidy, every key is the null-allele sentinel (which is negative, distinct
from every non-negative real allele index) or a non-negative index, and
exactly one of isHet and isHom holds. -/
theorem genotype_decomposition_properties : ∀ g ∈ validGenotypes,
    (decomposeGenotype g).isSome = true ∧
    countSum ((decomposeGenotype g).getD []) = ploidyOf g ∧
    NULL_ALLELE < 0 ∧
    (∀ k ∈ ((decomposeGenotype g).getD []).map Prod.fst, k = NULL_ALLELE ∨ 0 ≤ k) ∧
    (isHet ((decomposeGenotype g).getD []) = true ↔
      isHom ((decomposeGenotype g).getD []) = false) := by
  decide

/-- C5 witness: the genotype 0/1 is in the fixture and enjoys the properties. -/
theorem genotype_decomposition_properties_witness :
    ("0/1" ∈ validGenotypes) ∧
    ((decomposeGenotype "0/1").isSome = true ∧
      countSum ((decomposeGenotype "0/1").getD []) = ploidyOf "0/1" ∧
      NULL_ALLELE < 0 ∧
      (∀ k ∈ ((decomposeGenotype "0/1").getD []).map Prod.fst,
        k = NULL_ALLELE ∨ 0 ≤ k) ∧
      (isHet ((decomposeGenotype "0/1").getD []) = true ↔
        isHom ((decomposeGenotype "0/1").getD []) = false)) :=
  ⟨by decide, genotype_decomposition_properties "0/1" (by decide)⟩

/-- C6: an operand lexeme that is not a registry key is classified as a
Number token precisely when convert accepts it, convert accepts precisely
the strings whose entire remainder is consumed by a successful numeric
parse, and any other lexeme makes lexing fail with a syntax error. -/
theorem operand_number_classification :
    ∀ (lexeme : String) (vars : List (String × VariantFieldType)),
      lookupAssoc lexeme vars = none →
      (((convert lexeme).isSome = true) ↔
        (∃ v, parseDouble (lexeme.toList.dropWhile isWsChar) = some (v, []))) ∧
      ((∃ t, classifyOperand lexeme vars = Except.ok t ∧
          t.type = RuleTokenType.NUMBER) ↔ (convert lexeme).isSome = true) ∧
      (convert lexeme = none → ∃ e, classifyOperand lexeme vars = Except.error e) := by
  intro lexeme vars h
  refine ⟨?_, ?_, ?_⟩
  · unfold convert
    cases hp : parseDouble (lexeme.toList.dropWhile isWsChar) with
    | none => simp
    | some vr =>
      obtain ⟨v, rest⟩ := vr
      cases rest with
      | nil => simp
      | cons c cs => simp
  · cases hc : convert lexeme with
    | none => simp [classifyOperand, h, hc]
    | some v => simp [classifyOperand, h, hc]
  · intro hc
    simp [classifyOperand, h, hc]

/-- C6 witness: the lexeme 10 is not a registry key, and the classification
facts hold for it. -/
theorem operand_number_classification_witness :
    (lookupAssoc "10" demoRegistry = none) ∧
    ((((convert "10").isSome = true) ↔
      (∃ v, parseDouble ("10".toList.dropWhile isWsChar) = some (v, []))) ∧
      ((∃ t, classifyOperand "10" demoRegistry = Except.ok t ∧
          t.type = RuleTokenType.NUMBER) ↔ (convert "10").isSome = true) ∧
      (convert "10" = none →
        ∃ e, classifyOperand "10" demoRegistry = Except.error e)) :=
  ⟨by decide, operand_number_classification "10" demoRegistry (by decide)⟩

/-- C7: the two-argument passes call shape is true exactly when every
allele-indexed evaluation is true, and on the per-allele AF scenario the
all-alleles call fails while the single-allele call at index 1 passes. -/
theorem passes_all_alternate_alleles :
    (∀ (f : VariantFilter) (var : Variant) (sample : String),
      (VariantFilter.passes f var sample = true ↔
        ∀ i, i < var.alt.length →
          VariantFilter.passesAllele f var sample i = true)) ∧
    afFilterE.map (fun f => f.passes afVariant "S1") = Except.ok false ∧
    afFilterE.map (fun f => f.passesAllele afVariant "S1" 1) = Except.ok true := by
  refine ⟨?_, rfl, rfl⟩
  intro f var sample
  unfold VariantFilter.passes passesFields VariantFilter.passesAllele
  simp [List.all_eq_true, List.mem_range]

lemma evalFold_preserves (sample : Option String) (idx : Option Nat) :
    ∀ (rules : List RuleToken) (acc res : List RValue × Variant),
      rules.foldlM (evalStepVar sample idx) acc = Except.ok res → res.2 = acc.2 := by
  intro rules
  induction rules with
  | nil =>
    intro acc res h
    have h2 : acc = res := Except.ok.inj h
    rw [← h2]
  | cons t rest ih =>
    intro acc res h
    rw [List.foldlM_cons] at h
    cases he : evalStepVar sample idx acc t with
    | error e =>
      rw [he] at h
      exact Except.noConfusion (show Except.error e = Except.ok res from h)
    | ok acc1 =>
      rw [he] at h
      have hv : acc1.2 = acc.2 := by
        unfold evalStepVar at he
        split at he
        · injection he with h3
          rw [← h3]
        · simp at he
      exact (ih acc1 res h).trans hv

/-- C9: evaluating a compiled filter against a record returns the record
exactly as it was given: every successful evaluation leaves every field of
the record unchanged; only removeFilteredGenotypes rewrites a record. -/
theorem evaluation_preserves_record :
    ∀ (f : VariantFilter) (var : Variant) (sample : Option String) (idx : Option Nat)
      (out : RValue × Variant),
      evalRPNOnVariant f.rules var sample idx = Except.ok out → out.2 = var := by
  intro f var sample idx out h
  unfold evalRPNOnVariant at h
  split at h
  · injection h with h2
    rw [← h2]
    exact evalFold_preserves sample idx f.rules ([], var) _ (by assumption)
  · simp at h
  · simp at h

/-- C9 witness: the record-kind DP scenario evaluates successfully and hands
back the untouched record. -/
theorem evaluation_preserves_record_witness :
    (evalRPNOnVariant demoFilter.rules demoVariant none none =
      Except.ok (RValue.boolean true, demoVariant)) ∧
    ((RValue.boolean true, demoVariant) : RValue × Variant).2 = demoVariant :=
  ⟨rfl, evaluation_preserves_record demoFilter demoVariant none none
    (RValue.boolean true, demoVariant) rfl⟩

lemma splitOnSeps_ne_nil : ∀ cs : List Char, splitOnSeps cs ≠ [] := by
  intro cs
  induction cs with
  | nil => simp [splitOnSeps]
  | cons c rest ih =>
    simp only [splitOnSeps]
    split
    · simp
    · split <;> simp

lemma splitOnSeps_dot_slash (t : List Char) :
    splitOnSeps ('.' :: '/' :: t) = ['.'] :: splitOnSeps t := by
  rfl

lemma splitOnSeps_join_dots : ∀ ps : List (List Char),
    splitOnSeps (joinSlash (['.'] :: ps.map (fun _ => ['.']))) =
      ['.'] :: ps.map (fun _ => ['.']) := by
  intro ps
  induction ps with
  | nil => rfl
  | cons q qs ih =>
    calc splitOnSeps (joinSlash (['.'] :: (q :: qs).map (fun _ => ['.'])))
        = ['.'] :: splitOnSeps (joinSlash (['.'] :: qs.map (fun _ => ['.']))) :=
          splitOnSeps_dot_slash _
      _ = ['.'] :: ['.'] :: qs.map (fun _ => ['.']) := by rw [ih]

lemma map_dots_dots : ∀ qs : List (List Char),
    (qs.map (fun _ => (['.'] : List Char))).map (fun _ => (['.'] : List Char)) =
      qs.map (fun _ => ['.']) := by
  intro qs
  induction qs with
  | nil => rfl
  | cons q qs ih => simp [ih]

lemma missingGenotype_idem (g : String) :
    missingGenotype (missingGenotype g) = missingGenotype g := by
  unfold missingGenotype
  cases hp : splitOnSeps g.toList with
  | nil => exact absurd hp (splitOnSeps_ne_nil _)
  | cons p ps =>
    have h1 : (String.mk (joinSlash ((p :: ps).map (fun _ => ['.'])))).toList =
        joinSlash (['.'] :: ps.map (fun _ => ['.'])) := rfl
    rw [h1, splitOnSeps_join_dots]
    have h2 : (['.'] :: ps.map (fun _ => (['.'] : List Char))).map
        (fun _ => (['.'] : List Char)) = ['.'] :: ps.map (fun _ => ['.']) := by
      simp only [List.map_cons, map_dots_dots]
    rw [h2]
    rfl

lemma map_missing_idem (vs : List String) :
    (vs.map missingGenotype).map missingGenotype = vs.map missingGenotype := by
  rw [List.map_map]
  exact List.map_congr_left (fun v _ => missingGenotype_idem v)

lemma scrubGT_idem (fields : List (String × List String)) :
    scrubGT (scrubGT fields) = scrubGT fields := by
  unfold scrubGT
  rw [List.map_map]
  refine List.map_congr_left (fun kv _ => ?_)
  by_cases h : kv.1 = "GT"
  · simp [Function.comp, h]
    exact fun a _ => missingGenotype_idem a
  · simp [Function.comp, h]

lemma lookupAssoc_map_entries {α β : Type} (g : String → α → β) (n : String) :
    ∀ l : List (String × α),
      lookupAssoc n (l.map (fun kv => (kv.1, g kv.1 kv.2))) =
        (lookupAssoc n l).map (g n) := by
  intro l
  induction l with
  | nil => rfl
  | cons kv rest ih =>
    simp only [List.map_cons, lookupAssoc]
    by_cases h : kv.1 = n
    · simp [h]
    · simp [h, ih]

lemma passes_eq_passesFields (f : VariantFilter) (var : Variant) (n : String) :
    f.passes var n = passesFields f var.alt.length var.info var.infoFlags
      (some ((lookupAssoc n var.samples).getD [])) := rfl

/-- C8: removeFilteredGenotypes is idempotent: a sample that passed keeps
passing because its store is untouched, and a rewritten genotype is already
all-missing so a second rewrite changes nothing. -/
theorem removeFilteredGenotypes_idempotent :
    ∀ (f : VariantFilter) (var : Variant),
      f.removeFilteredGenotypes (f.removeFilteredGenotypes var) =
        f.removeFilteredGenotypes var := by
  intro f var
  set V1 := f.removeFilteredGenotypes var with hV1
  show { V1 with samples := V1.samples.map (fun nv =>
    (nv.1, if f.passes V1 nv.1 then nv.2 else scrubGT nv.2)) } = V1
  have hsamples : V1.samples = var.samples.map (fun nv =>
      (nv.1, if f.passes var nv.1 then nv.2 else scrubGT nv.2)) := rfl
  have hmap : V1.samples.map (fun nv =>
      (nv.1, if f.passes V1 nv.1 then nv.2 else scrubGT nv.2)) = V1.samples := by
    rw [hsamples, List.map_map]
    refine List.map_congr_left (fun nv _ => ?_)
    dsimp only [Function.comp]
    by_cases hp : f.passes var nv.1 = true
    · have hlook : lookupAssoc nv.1 V1.samples = lookupAssoc nv.1 var.samples := by
        rw [hsamples,
          lookupAssoc_map_entries (fun n w => if f.passes var n then w else scrubGT w)
            nv.1 var.samples]
        simp [hp]
      have hpv : f.passes V1 nv.1 = f.passes var nv.1 := by
        rw [passes_eq_passesFields, passes_eq_passesFields, hlook]
        rfl
      rw [hp, hpv, hp]
      simp
    · rw [Bool.not_eq_true] at hp
      rw [hp]
      cases hq : f.passes V1 nv.1 <;> simp [scrubGT_idem]
  rw [hmap]

/-- C2 witness: the multiply operator has priority 8. -/
theorem priority_matches_spec_table_witness :
    priority (mkToken RuleTokenType.MULTIPLY_OPERATOR) = PriorityResult.ret 8 :=
  (priority_matches_spec_table (mkToken RuleTokenType.MULTIPLY_OPERATOR)).1 rfl
